import Mathlib

/-!
# CA issuer: `Setup` (pkg/issuer/ca/setup.go)

A shallow embedding of `(*CA).Setup`, the function that verifies the signing
key pair of a CA issuer, records an event and sets the `Ready` condition.

`Setup` is a straight-line function with four return paths.  Its side effects
(log lines, recorder events, condition writes) are kept as an explicit trace of
calls, in program order, next to the returned error.  The collaborators that
live outside the file (the secret getters, `ResourceNamespace`) are fields of
the receiver `CA`.
-/

namespace CertManager

/-! ## Data model -/

/-- A Go `error` value; `Error` is the text that `err.Error()` returns. -/
structure GoError where
  Error : String
  deriving DecidableEq, Repr

/-- The part of `x509.Certificate` that `Setup` reads. -/
structure Certificate where
  IsCA : Bool
  deriving DecidableEq, Repr

/-- A private key (`crypto.Signer`); `Setup` discards it. -/
structure PrivateKey where
  id : Nat
  deriving DecidableEq, Repr

/-- Event types of `corev1`. -/
inductive EventType where
  | EventTypeNormal
  | EventTypeWarning
  deriving DecidableEq, Repr

/-- Condition statuses of `cmmeta`. -/
inductive ConditionStatus where
  | ConditionTrue
  | ConditionFalse
  | ConditionUnknown
  deriving DecidableEq, Repr

/-- Condition types are strings in the API package. -/
abbrev IssuerConditionType := String

/-- The condition type `v1.IssuerConditionReady`. -/
def IssuerConditionReady : IssuerConditionType := "Ready"

/-- Object metadata read by `Setup`: the namespace and the generation
(`issuer.GetGeneration()`). -/
structure ObjectMeta where
  Name : String
  Namespace : String
  Generation : Int
  deriving DecidableEq, Repr

/-- The CA issuer configuration, `v1.CAIssuer`. -/
structure CAIssuer where
  SecretName : String
  deriving DecidableEq, Repr

/-- The issuer spec (declared in the API package, outside the file).  `Setup`
reaches the secret name through `issuer.GetSpec().CA.SecretName`; the `CA`
configuration is one of several that a spec may carry and is taken as
nilable, a nil pointer being `none`. -/
structure IssuerSpec where
  CA : Option CAIssuer
  deriving DecidableEq, Repr

/-- One status condition of an issuer. -/
structure IssuerCondition where
  Type_ : IssuerConditionType
  Status : ConditionStatus
  Reason : String
  Message : String
  ObservedGeneration : Int
  deriving DecidableEq, Repr

/-- The issuer status: its list of conditions. -/
structure IssuerStatus where
  Conditions : List IssuerCondition
  deriving DecidableEq, Repr

/-- A `v1.GenericIssuer` (Issuer or ClusterIssuer). -/
structure GenericIssuer where
  ObjectMeta : ObjectMeta
  Spec : IssuerSpec
  Status : IssuerStatus
  deriving DecidableEq, Repr

/-- The result of running a Go function: it returns a value or it panics. -/
inductive Outcome (α : Type) where
  | returned (a : α)
  | panicked (reason : String)
  deriving DecidableEq, Repr

/-- The receiver of `Setup`.  `ResourceNamespace`, `kube.SecretTLSCert` and
`kube.SecretTLSKey` (both reading through `c.secretsLister`) are defined
outside the file and are taken as parameters.  `ResourceNamespace` names the
namespace to read from and is given the metadata of the issuer; the getters
answer a (namespace, secret name) lookup with a value or an error. -/
structure CA where
  ResourceNamespace : ObjectMeta → String
  SecretTLSCert : String → String → Except GoError Certificate
  SecretTLSKey : String → String → Except GoError PrivateKey

/-! ## Constants of setup.go -/

def errorGetKeyPair : String := "ErrGetKeyPair"
def errorInvalidKeyPair : String := "ErrInvalidKeyPair"
def successKeyPairVerified : String := "KeyPairVerified"
def messageErrorGetKeyPair : String := "Error getting keypair for CA issuer: "
def messageKeyPairVerified : String := "Signing CA verified"

/-! ## Effects -/

/-- The calls with a side effect that `Setup` makes. -/
inductive Effect where
  /-- The call `log.Error(err, msg)`. -/
  | LogError (err : Option GoError) (msg : String)
  /-- The call `log.V(logf.DebugLevel).Info(msg)`. -/
  | LogDebug (msg : String)
  /-- The call `c.Recorder.Event(object, eventtype, reason, message)`. -/
  | Event (object : ObjectMeta) (eventtype : EventType) (reason message : String)
  /-- The call `apiutil.SetIssuerCondition(object, observedGeneration,
  conditionType, status, reason, message)`. -/
  | SetIssuerCondition (object : ObjectMeta) (observedGeneration : Int)
      (conditionType : IssuerConditionType) (status : ConditionStatus)
      (reason message : String)
  deriving DecidableEq, Repr

/-- What a call of `Setup` that returns leaves behind: the returned error
(`none` is nil) and the calls it made, in order. -/
structure SetupResult where
  err : Option GoError
  trace : List Effect
  deriving DecidableEq, Repr

/-! ## Setup -/

/-- The function `(*CA).Setup`. -/
def Setup (c : CA) (issuer : GenericIssuer) : Outcome SetupResult :=
  let resourceNamespace := c.ResourceNamespace issuer.ObjectMeta
  match issuer.Spec.CA with
  | none => .panicked "invalid memory address or nil pointer dereference"
  | some ca =>
    match c.SecretTLSCert resourceNamespace ca.SecretName with
    | .error err =>
      let s := messageErrorGetKeyPair ++ err.Error
      .returned
        { err := some err
          trace :=
            [ .LogError (some err) "error getting signing CA TLS certificate",
              .Event issuer.ObjectMeta .EventTypeWarning errorGetKeyPair s,
              .SetIssuerCondition issuer.ObjectMeta issuer.ObjectMeta.Generation
                IssuerConditionReady .ConditionFalse errorGetKeyPair s ] }
    | .ok cert =>
      match c.SecretTLSKey resourceNamespace ca.SecretName with
      | .error err =>
        let s := messageErrorGetKeyPair ++ err.Error
        .returned
          { err := some err
            trace :=
              [ .LogError (some err) "error getting signing CA private key",
                .Event issuer.ObjectMeta .EventTypeWarning errorGetKeyPair s,
                .SetIssuerCondition issuer.ObjectMeta issuer.ObjectMeta.Generation
                  IssuerConditionReady .ConditionFalse errorGetKeyPair s ] }
      | .ok _ =>
        if !cert.IsCA then
          let s := messageErrorGetKeyPair ++ "certificate is not a CA"
          .returned
            { err := none
              trace :=
                [ .LogError none "signing certificate is not a CA",
                  .Event issuer.ObjectMeta .EventTypeWarning errorInvalidKeyPair s,
                  .SetIssuerCondition issuer.ObjectMeta issuer.ObjectMeta.Generation
                    IssuerConditionReady .ConditionFalse errorInvalidKeyPair s ] }
        else
          .returned
            { err := none
              trace :=
                [ .LogDebug "signing CA verified",
                  .Event issuer.ObjectMeta .EventTypeNormal successKeyPairVerified
                    messageKeyPairVerified,
                  .SetIssuerCondition issuer.ObjectMeta issuer.ObjectMeta.Generation
                    IssuerConditionReady .ConditionTrue successKeyPairVerified
                    messageKeyPairVerified ] }

/-! ## Reading a trace -/

/-- An event as the recorder receives it. -/
structure RecordedEvent where
  object : ObjectMeta
  eventtype : EventType
  reason : String
  message : String
  deriving DecidableEq, Repr

/-- A condition write as `apiutil.SetIssuerCondition` receives it. -/
structure ConditionWrite where
  object : ObjectMeta
  observedGeneration : Int
  conditionType : IssuerConditionType
  status : ConditionStatus
  reason : String
  message : String
  deriving DecidableEq, Repr

/-- The events of a trace, in order. -/
def eventsOf : List Effect → List RecordedEvent
  | [] => []
  | .Event o t r m :: rest => ⟨o, t, r, m⟩ :: eventsOf rest
  | _ :: rest => eventsOf rest

/-- The condition writes of a trace, in order. -/
def conditionWritesOf : List Effect → List ConditionWrite
  | [] => []
  | .SetIssuerCondition o g t s r m :: rest => ⟨o, g, t, s, r, m⟩ :: conditionWritesOf rest
  | _ :: rest => conditionWritesOf rest

/-! ## The condition store -/

/-- Modelled from the spec: `apiutil.SetIssuerCondition` (pkg/api/util) is not
part of this file.  The condition list keeps one entry per condition type: a
write overwrites the prior condition of the same type and is added at the
end when there is none. -/
def setCondition (conds : List IssuerCondition) (newCondition : IssuerCondition) :
    List IssuerCondition :=
  match conds with
  | [] => [newCondition]
  | cond :: rest =>
    if cond.Type_ = newCondition.Type_ then newCondition :: rest
    else cond :: setCondition rest newCondition

/-- Modelled from the spec: `apiutil.SetIssuerCondition` (pkg/api/util) is not
part of this file.  `SetCondition(subject, observedGeneration, conditionType,
status, reasonCode, message)` attaches the condition to the subject and
overwrites the prior condition of the same type. -/
def SetIssuerCondition (i : GenericIssuer) (observedGeneration : Int)
    (conditionType : IssuerConditionType) (status : ConditionStatus)
    (reason message : String) : GenericIssuer :=
  { i with
    Status :=
      { Conditions :=
          setCondition i.Status.Conditions
            { Type_ := conditionType
              Status := status
              Reason := reason
              Message := message
              ObservedGeneration := observedGeneration } } }

/-- The condition of the given type that an issuer carries, if any. -/
def GetIssuerCondition (i : GenericIssuer) (conditionType : IssuerConditionType) :
    Option IssuerCondition :=
  i.Status.Conditions.find? (fun cond => decide (cond.Type_ = conditionType))

/-- The conditions of the given type that an issuer carries. -/
def conditionsOfType (i : GenericIssuer) (conditionType : IssuerConditionType) :
    List IssuerCondition :=
  i.Status.Conditions.filter (fun cond => decide (cond.Type_ = conditionType))

/-- The effect of one call on the issuer object: only a condition write
changes it. -/
def applyEffect (i : GenericIssuer) : Effect → GenericIssuer
  | .SetIssuerCondition _ g t s r m => SetIssuerCondition i g t s r m
  | _ => i

/-- The issuer object after the calls of a trace. -/
def applyTrace (i : GenericIssuer) (trace : List Effect) : GenericIssuer :=
  trace.foldl applyEffect i

/-- One call of `Setup` on an issuer object: the object as the call leaves it,
with the result of the call. -/
def SetupIssuer (c : CA) (issuer : GenericIssuer) : Outcome (GenericIssuer × SetupResult) :=
  match Setup c issuer with
  | .panicked reason => .panicked reason
  | .returned r => .returned (applyTrace issuer r.trace, r)

/-! ## Example inputs -/

/-- An issuer in namespace `ns1` whose key pair is the secret `ca-secret`. -/
def issuerNs1 : GenericIssuer :=
  { ObjectMeta := { Name := "ca-issuer", Namespace := "ns1", Generation := 3 }
    Spec := { CA := some { SecretName := "ca-secret" } }
    Status := { Conditions := [] } }

/-- An issuer without a CA configuration. -/
def issuerNoCA : GenericIssuer :=
  { ObjectMeta := { Name := "other-issuer", Namespace := "ns1", Generation := 1 }
    Spec := { CA := none }
    Status := { Conditions := [] } }

/-- The error of a lookup that finds no secret. -/
def errNotFound : GoError := { Error := "secret \"ca-secret\" not found" }

/-- The error of a secret without a parsable private key. -/
def errNoKey : GoError := { Error := "no data for \"tls.key\" in secret" }

/-- A store in which the secret is missing. -/
def caSecretMissing : CA :=
  { ResourceNamespace := fun m => m.Namespace
    SecretTLSCert := fun _ _ => .error errNotFound
    SecretTLSKey := fun _ _ => .error errNotFound }

/-- A store whose secret has a certificate and no usable key. -/
def caKeyMissing : CA :=
  { ResourceNamespace := fun m => m.Namespace
    SecretTLSCert := fun _ _ => .ok { IsCA := true }
    SecretTLSKey := fun _ _ => .error errNoKey }

/-- A store whose secret holds a key pair; the certificate has the given
`IsCA` flag. -/
def caKeyPair (isCA : Bool) : CA :=
  { ResourceNamespace := fun m => m.Namespace
    SecretTLSCert := fun _ _ => .ok { IsCA := isCA }
    SecretTLSKey := fun _ _ => .ok { id := 7 } }

/-! ## The four return paths -/

/-- The trace of a failed fetch; `msg` is the log line. -/
def fetchFailedTrace (issuer : GenericIssuer) (e : GoError) (msg : String) : List Effect :=
  [ .LogError (some e) msg,
    .Event issuer.ObjectMeta .EventTypeWarning "ErrGetKeyPair"
      ("Error getting keypair for CA issuer: " ++ e.Error),
    .SetIssuerCondition issuer.ObjectMeta issuer.ObjectMeta.Generation "Ready" .ConditionFalse
      "ErrGetKeyPair" ("Error getting keypair for CA issuer: " ++ e.Error) ]

/-- The trace of the path on which the certificate is not a CA. -/
def notCATrace (issuer : GenericIssuer) : List Effect :=
  [ .LogError none "signing certificate is not a CA",
    .Event issuer.ObjectMeta .EventTypeWarning "ErrInvalidKeyPair"
      "Error getting keypair for CA issuer: certificate is not a CA",
    .SetIssuerCondition issuer.ObjectMeta issuer.ObjectMeta.Generation "Ready" .ConditionFalse
      "ErrInvalidKeyPair" "Error getting keypair for CA issuer: certificate is not a CA" ]

/-- The trace of the path on which the signing CA is verified. -/
def verifiedTrace (issuer : GenericIssuer) : List Effect :=
  [ .LogDebug "signing CA verified",
    .Event issuer.ObjectMeta .EventTypeNormal "KeyPairVerified" "Signing CA verified",
    .SetIssuerCondition issuer.ObjectMeta issuer.ObjectMeta.Generation "Ready" .ConditionTrue
      "KeyPairVerified" "Signing CA verified" ]

/-- The three states in which a call of `Setup` leaves the `Ready` condition,
as seen from outside. -/
inductive ReadyState where
  | Failed
  | Invalid
  | Verified
  deriving DecidableEq, Repr

/-- The state that a condition shows: by its status and its reason code. -/
def readyStateOf (cond : IssuerCondition) : Option ReadyState :=
  if cond.Status = .ConditionFalse ∧ cond.Reason = "ErrGetKeyPair" then some .Failed
  else if cond.Status = .ConditionFalse ∧ cond.Reason = "ErrInvalidKeyPair" then some .Invalid
  else if cond.Status = .ConditionTrue ∧ cond.Reason = "KeyPairVerified" then some .Verified
  else none

/-- The `Ready` condition that the design document prescribes for a pair of
collaborator responses (section 4.1, steps 1 to 3), at a given generation. -/
def specReadyCondition (generation : Int) (certResp : Except GoError Certificate)
    (keyResp : Except GoError PrivateKey) : IssuerCondition :=
  match certResp, keyResp with
  | .error e, _ =>
    ⟨"Ready", .ConditionFalse, "ErrGetKeyPair",
      "Error getting keypair for CA issuer: " ++ e.Error, generation⟩
  | .ok _, .error e =>
    ⟨"Ready", .ConditionFalse, "ErrGetKeyPair",
      "Error getting keypair for CA issuer: " ++ e.Error, generation⟩
  | .ok cert, .ok _ =>
    if cert.IsCA then
      ⟨"Ready", .ConditionTrue, "KeyPairVerified", "Signing CA verified", generation⟩
    else
      ⟨"Ready", .ConditionFalse, "ErrInvalidKeyPair",
        "Error getting keypair for CA issuer: certificate is not a CA", generation⟩

/-- The error that the design document prescribes for a pair of collaborator
responses: the error of the first fetch that fails, nil when none fails. -/
def specError (certResp : Except GoError Certificate) (keyResp : Except GoError PrivateKey) :
    Option GoError :=
  match certResp, keyResp with
  | .error e, _ => some e
  | .ok _, .error e => some e
  | .ok _, .ok _ => none

/-- An issuer that already carries a `Ready` condition (Verified) next to a
condition of another type. -/
def issuerVerified : GenericIssuer :=
  { ObjectMeta := { Name := "ca-issuer", Namespace := "ns1", Generation := 4 }
    Spec := { CA := some { SecretName := "ca-secret" } }
    Status :=
      { Conditions :=
          [ ⟨"Paused", .ConditionFalse, "NotPaused", "", 2⟩,
            ⟨"Ready", .ConditionTrue, "KeyPairVerified", "Signing CA verified", 3⟩ ] } }

/-! ## Setup, path by path -/

theorem Setup_eq_of_cert_error (c : CA) (issuer : GenericIssuer) (ca : CAIssuer) (e : GoError)
    (hca : issuer.Spec.CA = some ca)
    (hcert : c.SecretTLSCert (c.ResourceNamespace issuer.ObjectMeta) ca.SecretName = .error e) :
    Setup c issuer = .returned
      { err := some e
        trace := fetchFailedTrace issuer e "error getting signing CA TLS certificate" } := by
  simp only [Setup, hca, hcert]
  rfl

theorem Setup_eq_of_key_error (c : CA) (issuer : GenericIssuer) (ca : CAIssuer)
    (cert : Certificate) (e : GoError)
    (hca : issuer.Spec.CA = some ca)
    (hcert : c.SecretTLSCert (c.ResourceNamespace issuer.ObjectMeta) ca.SecretName = .ok cert)
    (hkey : c.SecretTLSKey (c.ResourceNamespace issuer.ObjectMeta) ca.SecretName = .error e) :
    Setup c issuer = .returned
      { err := some e
        trace := fetchFailedTrace issuer e "error getting signing CA private key" } := by
  simp only [Setup, hca, hcert, hkey]
  rfl

theorem Setup_eq_of_not_ca (c : CA) (issuer : GenericIssuer) (ca : CAIssuer)
    (cert : Certificate) (key : PrivateKey)
    (hca : issuer.Spec.CA = some ca)
    (hcert : c.SecretTLSCert (c.ResourceNamespace issuer.ObjectMeta) ca.SecretName = .ok cert)
    (hkey : c.SecretTLSKey (c.ResourceNamespace issuer.ObjectMeta) ca.SecretName = .ok key)
    (hisca : cert.IsCA = false) :
    Setup c issuer = .returned { err := none, trace := notCATrace issuer } := by
  simp only [Setup, hca, hcert, hkey, hisca]
  rfl

theorem Setup_eq_of_ca (c : CA) (issuer : GenericIssuer) (ca : CAIssuer)
    (cert : Certificate) (key : PrivateKey)
    (hca : issuer.Spec.CA = some ca)
    (hcert : c.SecretTLSCert (c.ResourceNamespace issuer.ObjectMeta) ca.SecretName = .ok cert)
    (hkey : c.SecretTLSKey (c.ResourceNamespace issuer.ObjectMeta) ca.SecretName = .ok key)
    (hisca : cert.IsCA = true) :
    Setup c issuer = .returned { err := none, trace := verifiedTrace issuer } := by
  simp only [Setup, hca, hcert, hkey, hisca]
  rfl

/-- C1: when the certificate fetch fails with `e`, whatever the key fetch would
answer, `Setup` returns exactly `e`, emits exactly one event (Warning,
`ErrGetKeyPair`, the fixed text followed by `e.Error()`) and makes exactly one
condition write: `Ready`, False, `ErrGetKeyPair`, the same message, with the
generation of the issuer as observed generation. -/
theorem Setup_cert_fetch_failed (c : CA) (issuer : GenericIssuer) (ca : CAIssuer) (e : GoError)
    (hca : issuer.Spec.CA = some ca)
    (hcert : c.SecretTLSCert (c.ResourceNamespace issuer.ObjectMeta) ca.SecretName = .error e) :
    ∃ r, Setup c issuer = .returned r ∧ r.err = some e ∧
      eventsOf r.trace =
        [⟨issuer.ObjectMeta, .EventTypeWarning, "ErrGetKeyPair",
          "Error getting keypair for CA issuer: " ++ e.Error⟩] ∧
      conditionWritesOf r.trace =
        [⟨issuer.ObjectMeta, issuer.ObjectMeta.Generation, "Ready", .ConditionFalse,
          "ErrGetKeyPair", "Error getting keypair for CA issuer: " ++ e.Error⟩] :=
  ⟨_, Setup_eq_of_cert_error c issuer ca e hca hcert, rfl, rfl, rfl⟩

/-- Witness of C1: the secret is missing. -/
theorem Setup_cert_fetch_failed_witness :
    issuerNs1.Spec.CA = some ⟨"ca-secret"⟩ ∧
    caSecretMissing.SecretTLSCert "ns1" "ca-secret" = .error errNotFound ∧
    ∃ r, Setup caSecretMissing issuerNs1 = .returned r ∧ r.err = some errNotFound ∧
      eventsOf r.trace =
        [⟨issuerNs1.ObjectMeta, .EventTypeWarning, "ErrGetKeyPair",
          "Error getting keypair for CA issuer: " ++ errNotFound.Error⟩] ∧
      conditionWritesOf r.trace =
        [⟨issuerNs1.ObjectMeta, 3, "Ready", .ConditionFalse,
          "ErrGetKeyPair", "Error getting keypair for CA issuer: " ++ errNotFound.Error⟩] :=
  ⟨rfl, rfl, Setup_cert_fetch_failed caSecretMissing issuerNs1 ⟨"ca-secret"⟩ errNotFound rfl rfl⟩

/-- C2: when the certificate fetch succeeds (any certificate) and the key fetch
fails with `e`, `Setup` returns `e`, emits exactly one event (Warning,
`ErrGetKeyPair`) and makes exactly one condition write: `Ready`, False,
`ErrGetKeyPair`, the fixed text followed by `e.Error()`.  Against a call whose
certificate fetch fails, event and condition write agree in everything but the
message text. -/
theorem Setup_key_fetch_failed (c : CA) (issuer : GenericIssuer) (ca : CAIssuer)
    (cert : Certificate) (e : GoError)
    (hca : issuer.Spec.CA = some ca)
    (hcert : c.SecretTLSCert (c.ResourceNamespace issuer.ObjectMeta) ca.SecretName = .ok cert)
    (hkey : c.SecretTLSKey (c.ResourceNamespace issuer.ObjectMeta) ca.SecretName = .error e) :
    ∃ r, Setup c issuer = .returned r ∧ r.err = some e ∧
      eventsOf r.trace =
        [⟨issuer.ObjectMeta, .EventTypeWarning, "ErrGetKeyPair",
          "Error getting keypair for CA issuer: " ++ e.Error⟩] ∧
      conditionWritesOf r.trace =
        [⟨issuer.ObjectMeta, issuer.ObjectMeta.Generation, "Ready", .ConditionFalse,
          "ErrGetKeyPair", "Error getting keypair for CA issuer: " ++ e.Error⟩] ∧
      ∀ (c2 : CA) (e2 : GoError),
        c2.SecretTLSCert (c2.ResourceNamespace issuer.ObjectMeta) ca.SecretName = .error e2 →
        ∃ r2, Setup c2 issuer = .returned r2 ∧
          (eventsOf r2.trace).map (fun ev => (ev.object, ev.eventtype, ev.reason)) =
            (eventsOf r.trace).map (fun ev => (ev.object, ev.eventtype, ev.reason)) ∧
          (conditionWritesOf r2.trace).map
              (fun w => (w.object, w.observedGeneration, w.conditionType, w.status, w.reason)) =
            (conditionWritesOf r.trace).map
              (fun w => (w.object, w.observedGeneration, w.conditionType, w.status, w.reason)) :=
  ⟨_, Setup_eq_of_key_error c issuer ca cert e hca hcert hkey, rfl, rfl, rfl,
    fun c2 e2 h2 => ⟨_, Setup_eq_of_cert_error c2 issuer ca e2 hca h2, rfl, rfl⟩⟩

/-- Witness of C2: the secret has a certificate and no usable key. -/
theorem Setup_key_fetch_failed_witness :
    issuerNs1.Spec.CA = some ⟨"ca-secret"⟩ ∧
    caKeyMissing.SecretTLSCert "ns1" "ca-secret" = .ok ⟨true⟩ ∧
    caKeyMissing.SecretTLSKey "ns1" "ca-secret" = .error errNoKey ∧
    ∃ r, Setup caKeyMissing issuerNs1 = .returned r ∧ r.err = some errNoKey ∧
      eventsOf r.trace =
        [⟨issuerNs1.ObjectMeta, .EventTypeWarning, "ErrGetKeyPair",
          "Error getting keypair for CA issuer: " ++ errNoKey.Error⟩] ∧
      conditionWritesOf r.trace =
        [⟨issuerNs1.ObjectMeta, 3, "Ready", .ConditionFalse,
          "ErrGetKeyPair", "Error getting keypair for CA issuer: " ++ errNoKey.Error⟩] ∧
      ∀ (c2 : CA) (e2 : GoError),
        c2.SecretTLSCert (c2.ResourceNamespace issuerNs1.ObjectMeta) "ca-secret" = .error e2 →
        ∃ r2, Setup c2 issuerNs1 = .returned r2 ∧
          (eventsOf r2.trace).map (fun ev => (ev.object, ev.eventtype, ev.reason)) =
            (eventsOf r.trace).map (fun ev => (ev.object, ev.eventtype, ev.reason)) ∧
          (conditionWritesOf r2.trace).map
              (fun w => (w.object, w.observedGeneration, w.conditionType, w.status, w.reason)) =
            (conditionWritesOf r.trace).map
              (fun w => (w.object, w.observedGeneration, w.conditionType, w.status, w.reason)) :=
  ⟨rfl, rfl, rfl,
    Setup_key_fetch_failed caKeyMissing issuerNs1 ⟨"ca-secret"⟩ ⟨true⟩ errNoKey rfl rfl rfl⟩

/-- C3: when both fetches succeed and the certificate has `IsCA == false`,
`Setup` returns nil, emits exactly one event (Warning, `ErrInvalidKeyPair`) and
makes exactly one condition write: `Ready`, False, `ErrInvalidKeyPair`, with the
message "Error getting keypair for CA issuer: certificate is not a CA". -/
theorem Setup_not_a_ca (c : CA) (issuer : GenericIssuer) (ca : CAIssuer)
    (cert : Certificate) (key : PrivateKey)
    (hca : issuer.Spec.CA = some ca)
    (hcert : c.SecretTLSCert (c.ResourceNamespace issuer.ObjectMeta) ca.SecretName = .ok cert)
    (hkey : c.SecretTLSKey (c.ResourceNamespace issuer.ObjectMeta) ca.SecretName = .ok key)
    (hisca : cert.IsCA = false) :
    ∃ r, Setup c issuer = .returned r ∧ r.err = none ∧
      eventsOf r.trace =
        [⟨issuer.ObjectMeta, .EventTypeWarning, "ErrInvalidKeyPair",
          "Error getting keypair for CA issuer: certificate is not a CA"⟩] ∧
      conditionWritesOf r.trace =
        [⟨issuer.ObjectMeta, issuer.ObjectMeta.Generation, "Ready", .ConditionFalse,
          "ErrInvalidKeyPair", "Error getting keypair for CA issuer: certificate is not a CA"⟩] :=
  ⟨_, Setup_eq_of_not_ca c issuer ca cert key hca hcert hkey hisca, rfl, rfl, rfl⟩

/-- Witness of C3: secret `ca-secret` in `ns1`, a key pair whose certificate is
not a CA. -/
theorem Setup_not_a_ca_witness :
    issuerNs1.Spec.CA = some ⟨"ca-secret"⟩ ∧
    (caKeyPair false).SecretTLSCert "ns1" "ca-secret" = .ok ⟨false⟩ ∧
    (caKeyPair false).SecretTLSKey "ns1" "ca-secret" = .ok ⟨7⟩ ∧
    ∃ r, Setup (caKeyPair false) issuerNs1 = .returned r ∧ r.err = none ∧
      eventsOf r.trace =
        [⟨issuerNs1.ObjectMeta, .EventTypeWarning, "ErrInvalidKeyPair",
          "Error getting keypair for CA issuer: certificate is not a CA"⟩] ∧
      conditionWritesOf r.trace =
        [⟨issuerNs1.ObjectMeta, 3, "Ready", .ConditionFalse,
          "ErrInvalidKeyPair", "Error getting keypair for CA issuer: certificate is not a CA"⟩] :=
  ⟨rfl, rfl, rfl,
    Setup_not_a_ca (caKeyPair false) issuerNs1 ⟨"ca-secret"⟩ ⟨false⟩ ⟨7⟩ rfl rfl rfl rfl⟩

/-- C4: when both fetches succeed and the certificate has `IsCA == true`,
`Setup` returns nil, emits exactly one event (Normal, `KeyPairVerified`,
"Signing CA verified") and makes exactly one condition write: `Ready`, True,
`KeyPairVerified`, "Signing CA verified". -/
theorem Setup_verified (c : CA) (issuer : GenericIssuer) (ca : CAIssuer)
    (cert : Certificate) (key : PrivateKey)
    (hca : issuer.Spec.CA = some ca)
    (hcert : c.SecretTLSCert (c.ResourceNamespace issuer.ObjectMeta) ca.SecretName = .ok cert)
    (hkey : c.SecretTLSKey (c.ResourceNamespace issuer.ObjectMeta) ca.SecretName = .ok key)
    (hisca : cert.IsCA = true) :
    ∃ r, Setup c issuer = .returned r ∧ r.err = none ∧
      eventsOf r.trace =
        [⟨issuer.ObjectMeta, .EventTypeNormal, "KeyPairVerified", "Signing CA verified"⟩] ∧
      conditionWritesOf r.trace =
        [⟨issuer.ObjectMeta, issuer.ObjectMeta.Generation, "Ready", .ConditionTrue,
          "KeyPairVerified", "Signing CA verified"⟩] :=
  ⟨_, Setup_eq_of_ca c issuer ca cert key hca hcert hkey hisca, rfl, rfl, rfl⟩

/-- Witness of C4: a key pair whose certificate is a CA. -/
theorem Setup_verified_witness :
    issuerNs1.Spec.CA = some ⟨"ca-secret"⟩ ∧
    (caKeyPair true).SecretTLSCert "ns1" "ca-secret" = .ok ⟨true⟩ ∧
    (caKeyPair true).SecretTLSKey "ns1" "ca-secret" = .ok ⟨7⟩ ∧
    ∃ r, Setup (caKeyPair true) issuerNs1 = .returned r ∧ r.err = none ∧
      eventsOf r.trace =
        [⟨issuerNs1.ObjectMeta, .EventTypeNormal, "KeyPairVerified", "Signing CA verified"⟩] ∧
      conditionWritesOf r.trace =
        [⟨issuerNs1.ObjectMeta, 3, "Ready", .ConditionTrue,
          "KeyPairVerified", "Signing CA verified"⟩] :=
  ⟨rfl, rfl, rfl,
    Setup_verified (caKeyPair true) issuerNs1 ⟨"ca-secret"⟩ ⟨true⟩ ⟨7⟩ rfl rfl rfl rfl⟩

/-! ## All paths at once -/

theorem Setup_panics_without_ca (c : CA) (issuer : GenericIssuer)
    (hca : issuer.Spec.CA = none) :
    Setup c issuer = .panicked "invalid memory address or nil pointer dereference" := by
  simp only [Setup, hca]

/-- The issuer without a CA configuration: the dereference panics before any
fetch, event or condition write. -/
theorem Setup_issuerNoCA :
    Setup caSecretMissing issuerNoCA =
      .panicked "invalid memory address or nil pointer dereference" :=
  Setup_panics_without_ca caSecretMissing issuerNoCA rfl

/-- With a CA configuration, `Setup` returns; the returned error is the one of
`specError` and the trace is the one of the path taken. -/
theorem Setup_paths (c : CA) (issuer : GenericIssuer) (ca : CAIssuer)
    (hca : issuer.Spec.CA = some ca) :
    ∃ r, Setup c issuer = .returned r ∧
      r.err = specError (c.SecretTLSCert (c.ResourceNamespace issuer.ObjectMeta) ca.SecretName)
                (c.SecretTLSKey (c.ResourceNamespace issuer.ObjectMeta) ca.SecretName) ∧
      ((∃ e msg, r.err = some e ∧ r.trace = fetchFailedTrace issuer e msg) ∨
       (r.err = none ∧ r.trace = notCATrace issuer) ∨
       (r.err = none ∧ r.trace = verifiedTrace issuer)) := by
  cases hcert : c.SecretTLSCert (c.ResourceNamespace issuer.ObjectMeta) ca.SecretName with
  | error e =>
    exact ⟨_, Setup_eq_of_cert_error c issuer ca e hca hcert, rfl, Or.inl ⟨e, _, rfl, rfl⟩⟩
  | ok cert =>
    cases hkey : c.SecretTLSKey (c.ResourceNamespace issuer.ObjectMeta) ca.SecretName with
    | error e =>
      exact ⟨_, Setup_eq_of_key_error c issuer ca cert e hca hcert hkey, rfl,
        Or.inl ⟨e, _, rfl, rfl⟩⟩
    | ok key =>
      cases hisca : cert.IsCA with
      | false =>
        exact ⟨_, Setup_eq_of_not_ca c issuer ca cert key hca hcert hkey hisca, rfl,
          Or.inr (Or.inl ⟨rfl, rfl⟩)⟩
      | true =>
        exact ⟨_, Setup_eq_of_ca c issuer ca cert key hca hcert hkey hisca, rfl,
          Or.inr (Or.inr ⟨rfl, rfl⟩)⟩

/-- C5: `Setup` returns a non-nil error exactly when the certificate fetch or
the key fetch fails; the error returned is then the very error of the fetch
that failed; and with both fetches successful the result is nil, also when the
certificate is not a CA. -/
theorem Setup_error_iff_fetch_failed (c : CA) (issuer : GenericIssuer) (ca : CAIssuer)
    (hca : issuer.Spec.CA = some ca) :
    ∃ r, Setup c issuer = .returned r ∧
      (r.err ≠ none ↔
        ((∃ e, c.SecretTLSCert (c.ResourceNamespace issuer.ObjectMeta) ca.SecretName = .error e) ∨
         (∃ e, c.SecretTLSKey (c.ResourceNamespace issuer.ObjectMeta) ca.SecretName = .error e))) ∧
      (∀ e, r.err = some e →
        (c.SecretTLSCert (c.ResourceNamespace issuer.ObjectMeta) ca.SecretName = .error e ∨
         ((∃ cert, c.SecretTLSCert (c.ResourceNamespace issuer.ObjectMeta) ca.SecretName
              = .ok cert) ∧
           c.SecretTLSKey (c.ResourceNamespace issuer.ObjectMeta) ca.SecretName = .error e))) ∧
      (∀ cert key,
        c.SecretTLSCert (c.ResourceNamespace issuer.ObjectMeta) ca.SecretName = .ok cert →
        c.SecretTLSKey (c.ResourceNamespace issuer.ObjectMeta) ca.SecretName = .ok key →
        cert.IsCA = false → r.err = none) := by
  obtain ⟨r, hr, herr, -⟩ := Setup_paths c issuer ca hca
  refine ⟨r, hr, ?_, ?_, ?_⟩
  · rw [herr]
    cases hcert : c.SecretTLSCert (c.ResourceNamespace issuer.ObjectMeta) ca.SecretName with
    | error e => simp [specError]
    | ok cert =>
      cases hkey : c.SecretTLSKey (c.ResourceNamespace issuer.ObjectMeta) ca.SecretName with
      | error e => simp [specError]
      | ok key => simp [specError]
  · intro e he
    rw [herr] at he
    cases hcert : c.SecretTLSCert (c.ResourceNamespace issuer.ObjectMeta) ca.SecretName with
    | error e1 =>
      rw [hcert] at he
      simp only [specError, Option.some.injEq] at he
      exact Or.inl (by rw [he])
    | ok cert =>
      cases hkey : c.SecretTLSKey (c.ResourceNamespace issuer.ObjectMeta) ca.SecretName with
      | error e1 =>
        rw [hcert, hkey] at he
        simp only [specError, Option.some.injEq] at he
        exact Or.inr ⟨⟨cert, rfl⟩, by rw [he]⟩
      | ok key =>
        rw [hcert, hkey] at he
        simp [specError] at he
  · intro cert key hcert hkey _
    rw [herr, hcert, hkey]
    rfl

/-- Witness of C5: a key pair whose certificate is not a CA gives nil. -/
theorem Setup_error_iff_fetch_failed_witness :
    issuerNs1.Spec.CA = some ⟨"ca-secret"⟩ ∧
    ∃ r, Setup (caKeyPair false) issuerNs1 = .returned r ∧
      (r.err ≠ none ↔
        ((∃ e, (caKeyPair false).SecretTLSCert "ns1" "ca-secret" = .error e) ∨
         (∃ e, (caKeyPair false).SecretTLSKey "ns1" "ca-secret" = .error e))) ∧
      (∀ e, r.err = some e →
        ((caKeyPair false).SecretTLSCert "ns1" "ca-secret" = .error e ∨
         ((∃ cert, (caKeyPair false).SecretTLSCert "ns1" "ca-secret" = .ok cert) ∧
           (caKeyPair false).SecretTLSKey "ns1" "ca-secret" = .error e))) ∧
      (∀ cert key,
        (caKeyPair false).SecretTLSCert "ns1" "ca-secret" = .ok cert →
        (caKeyPair false).SecretTLSKey "ns1" "ca-secret" = .ok key →
        cert.IsCA = false → r.err = none) :=
  ⟨rfl, Setup_error_iff_fetch_failed (caKeyPair false) issuerNs1 ⟨"ca-secret"⟩ rfl⟩

/-- C6: a call of `Setup` returns, and it has then made exactly one condition
write and at most one event emission (in fact exactly one), whichever of the
four return paths it took. -/
theorem Setup_one_write_one_event (c : CA) (issuer : GenericIssuer) (ca : CAIssuer)
    (hca : issuer.Spec.CA = some ca) :
    ∃ r, Setup c issuer = .returned r ∧
      (conditionWritesOf r.trace).length = 1 ∧ (eventsOf r.trace).length ≤ 1 ∧
      (eventsOf r.trace).length = 1 ∧
      ((∃ e, r.trace = fetchFailedTrace issuer e "error getting signing CA TLS certificate") ∨
       (∃ e, r.trace = fetchFailedTrace issuer e "error getting signing CA private key") ∨
       r.trace = notCATrace issuer ∨ r.trace = verifiedTrace issuer) := by
  cases hcert : c.SecretTLSCert (c.ResourceNamespace issuer.ObjectMeta) ca.SecretName with
  | error e =>
    exact ⟨_, Setup_eq_of_cert_error c issuer ca e hca hcert, rfl, Nat.le_refl 1, rfl,
      Or.inl ⟨e, rfl⟩⟩
  | ok cert =>
    cases hkey : c.SecretTLSKey (c.ResourceNamespace issuer.ObjectMeta) ca.SecretName with
    | error e =>
      exact ⟨_, Setup_eq_of_key_error c issuer ca cert e hca hcert hkey, rfl, Nat.le_refl 1, rfl,
        Or.inr (Or.inl ⟨e, rfl⟩)⟩
    | ok key =>
      cases hisca : cert.IsCA with
      | false =>
        exact ⟨_, Setup_eq_of_not_ca c issuer ca cert key hca hcert hkey hisca, rfl,
          Nat.le_refl 1, rfl, Or.inr (Or.inr (Or.inl rfl))⟩
      | true =>
        exact ⟨_, Setup_eq_of_ca c issuer ca cert key hca hcert hkey hisca, rfl,
          Nat.le_refl 1, rfl, Or.inr (Or.inr (Or.inr rfl))⟩

/-- Witness of C6: the path on which the key fetch fails. -/
theorem Setup_one_write_one_event_witness :
    issuerNs1.Spec.CA = some ⟨"ca-secret"⟩ ∧
    ∃ r, Setup caKeyMissing issuerNs1 = .returned r ∧
      (conditionWritesOf r.trace).length = 1 ∧ (eventsOf r.trace).length ≤ 1 ∧
      (eventsOf r.trace).length = 1 ∧
      ((∃ e, r.trace = fetchFailedTrace issuerNs1 e "error getting signing CA TLS certificate") ∨
       (∃ e, r.trace = fetchFailedTrace issuerNs1 e "error getting signing CA private key") ∨
       r.trace = notCATrace issuerNs1 ∨ r.trace = verifiedTrace issuerNs1) :=
  ⟨rfl, Setup_one_write_one_event caKeyMissing issuerNs1 ⟨"ca-secret"⟩ rfl⟩

/-- C7: on every return path (certificate fetch failed, key fetch failed, not a
CA, verified) the one condition written is of type `Ready`, is written on the
issuer passed in, and has the generation of that issuer
(`issuer.GetGeneration()`) as observed generation. -/
theorem Setup_write_ready_generation (c : CA) (issuer : GenericIssuer) (ca : CAIssuer)
    (hca : issuer.Spec.CA = some ca) :
    ∃ r w, Setup c issuer = .returned r ∧ conditionWritesOf r.trace = [w] ∧
      w.conditionType = IssuerConditionReady ∧
      w.observedGeneration = issuer.ObjectMeta.Generation ∧ w.object = issuer.ObjectMeta := by
  obtain ⟨r, hr, -, hpath⟩ := Setup_paths c issuer ca hca
  rcases hpath with ⟨e, msg, -, ht⟩ | ⟨-, ht⟩ | ⟨-, ht⟩
  · exact ⟨r, _, hr, by rw [ht]; rfl, rfl, rfl, rfl⟩
  · exact ⟨r, _, hr, by rw [ht]; rfl, rfl, rfl, rfl⟩
  · exact ⟨r, _, hr, by rw [ht]; rfl, rfl, rfl, rfl⟩

/-- Witness of C7: the path on which the signing CA is verified. -/
theorem Setup_write_ready_generation_witness :
    issuerNs1.Spec.CA = some ⟨"ca-secret"⟩ ∧
    ∃ r w, Setup (caKeyPair true) issuerNs1 = .returned r ∧ conditionWritesOf r.trace = [w] ∧
      w.conditionType = IssuerConditionReady ∧
      w.observedGeneration = 3 ∧ w.object = issuerNs1.ObjectMeta :=
  ⟨rfl, Setup_write_ready_generation (caKeyPair true) issuerNs1 ⟨"ca-secret"⟩ rfl⟩

/-- C10: for an issuer that has a non-empty secret name, and for every answer of
the secret getters (an error for a missing or malformed secret included),
`Setup` does not panic: it returns, with nil or with an error.  The
dereference `issuer.GetSpec().CA.SecretName` is the only step of `Setup` that
can panic, and an issuer that has a secret name has the CA configuration that
the dereference goes through. -/
theorem Setup_returns (c : CA) (issuer : GenericIssuer)
    (hname : ∃ ca, issuer.Spec.CA = some ca ∧ ca.SecretName ≠ "") :
    ∃ r, Setup c issuer = .returned r ∧ (r.err = none ∨ ∃ e, r.err = some e) := by
  obtain ⟨ca, hca, -⟩ := hname
  obtain ⟨r, hr, -, -⟩ := Setup_paths c issuer ca hca
  refine ⟨r, hr, ?_⟩
  cases r.err with
  | none => exact Or.inl rfl
  | some e => exact Or.inr ⟨e, rfl⟩

/-- Witness of C10: the secret is missing, and `Setup` returns the error. -/
theorem Setup_returns_witness :
    (∃ ca, issuerNs1.Spec.CA = some ca ∧ ca.SecretName ≠ "") ∧
    ∃ r, Setup caSecretMissing issuerNs1 = .returned r ∧ (r.err = none ∨ ∃ e, r.err = some e) :=
  ⟨⟨⟨"ca-secret"⟩, rfl, by decide⟩,
    Setup_returns caSecretMissing issuerNs1 ⟨⟨"ca-secret"⟩, rfl, by decide⟩⟩

/-! ## The condition store: overwrite, not append -/

theorem find_setCondition (conds : List IssuerCondition) (nc : IssuerCondition)
    (t : IssuerConditionType) (ht : nc.Type_ = t) :
    (setCondition conds nc).find? (fun cond => decide (cond.Type_ = t)) = some nc := by
  induction conds with
  | nil => simp [setCondition, ht]
  | cons cond rest ih =>
    by_cases h : cond.Type_ = nc.Type_
    · simp [setCondition, h, ht]
    · have h2 : ¬ cond.Type_ = t := by rw [← ht]; exact h
      simp [setCondition, h, h2, ih]

theorem setCondition_idem (conds : List IssuerCondition) (nc : IssuerCondition) :
    setCondition (setCondition conds nc) nc = setCondition conds nc := by
  induction conds with
  | nil => simp [setCondition]
  | cons cond rest ih =>
    by_cases h : cond.Type_ = nc.Type_
    · simp [setCondition, h]
    · simp [setCondition, h, ih]

theorem count_setCondition (conds : List IssuerCondition) (nc : IssuerCondition)
    (t : IssuerConditionType) (ht : nc.Type_ = t) :
    ((setCondition conds nc).filter (fun cond => decide (cond.Type_ = t))).length =
      max 1 (conds.filter (fun cond => decide (cond.Type_ = t))).length := by
  induction conds with
  | nil => simp [setCondition, ht]
  | cons cond rest ih =>
    by_cases h : cond.Type_ = nc.Type_
    · have h2 : cond.Type_ = t := by rw [← ht]; exact h
      simp [setCondition, h, h2, ht]
    · have h2 : ¬ cond.Type_ = t := by rw [← ht]; exact h
      simp [setCondition, h, h2, ih]

theorem specReadyCondition_type (g : Int) (certResp : Except GoError Certificate)
    (keyResp : Except GoError PrivateKey) :
    (specReadyCondition g certResp keyResp).Type_ = "Ready" := by
  cases certResp with
  | error e => rfl
  | ok cert =>
    cases keyResp with
    | error e => rfl
    | ok key =>
      cases hisca : cert.IsCA <;> simp [specReadyCondition, hisca]

theorem specReadyCondition_not_ca (g : Int) (cert : Certificate) (key : PrivateKey)
    (hisca : cert.IsCA = false) :
    specReadyCondition g (.ok cert) (.ok key) =
      ⟨"Ready", .ConditionFalse, "ErrInvalidKeyPair",
        "Error getting keypair for CA issuer: certificate is not a CA", g⟩ := by
  simp [specReadyCondition, hisca]

theorem specReadyCondition_ca (g : Int) (cert : Certificate) (key : PrivateKey)
    (hisca : cert.IsCA = true) :
    specReadyCondition g (.ok cert) (.ok key) =
      ⟨"Ready", .ConditionTrue, "KeyPairVerified", "Signing CA verified", g⟩ := by
  simp [specReadyCondition, hisca]

/-- With a CA configuration, `Setup` returns, and the calls of its trace write
the condition of `specReadyCondition` into the condition list of the object
they are applied to. -/
theorem Setup_writes_spec_condition (c : CA) (issuer : GenericIssuer) (ca : CAIssuer)
    (hca : issuer.Spec.CA = some ca) :
    ∃ r, Setup c issuer = .returned r ∧ (eventsOf r.trace).length = 1 ∧
      ∀ i : GenericIssuer, applyTrace i r.trace =
        { i with
          Status :=
            { Conditions :=
                setCondition i.Status.Conditions
                  (specReadyCondition issuer.ObjectMeta.Generation
                    (c.SecretTLSCert (c.ResourceNamespace issuer.ObjectMeta) ca.SecretName)
                    (c.SecretTLSKey (c.ResourceNamespace issuer.ObjectMeta) ca.SecretName)) } } := by
  cases hcert : c.SecretTLSCert (c.ResourceNamespace issuer.ObjectMeta) ca.SecretName with
  | error e =>
    exact ⟨_, Setup_eq_of_cert_error c issuer ca e hca hcert, rfl, fun _ => rfl⟩
  | ok cert =>
    cases hkey : c.SecretTLSKey (c.ResourceNamespace issuer.ObjectMeta) ca.SecretName with
    | error e =>
      exact ⟨_, Setup_eq_of_key_error c issuer ca cert e hca hcert hkey, rfl, fun _ => rfl⟩
    | ok key =>
      cases hisca : cert.IsCA with
      | false =>
        refine ⟨_, Setup_eq_of_not_ca c issuer ca cert key hca hcert hkey hisca, rfl,
          fun i => ?_⟩
        simp only [specReadyCondition, hisca]
        rfl
      | true =>
        refine ⟨_, Setup_eq_of_ca c issuer ca cert key hca hcert hkey hisca, rfl,
          fun i => ?_⟩
        simp only [specReadyCondition, hisca]
        rfl

/-- The result of `Setup` does not depend on the status of the issuer. -/
theorem Setup_congr_status (c : CA) (i j : GenericIssuer)
    (hmeta : i.ObjectMeta = j.ObjectMeta) (hspec : i.Spec = j.Spec) :
    Setup c i = Setup c j := by
  simp only [Setup, hmeta, hspec]

/-- One call on an issuer object, spelled out. -/
theorem SetupIssuer_eq (c : CA) (issuer : GenericIssuer) (ca : CAIssuer)
    (hca : issuer.Spec.CA = some ca) :
    ∃ r, Setup c issuer = .returned r ∧ (eventsOf r.trace).length = 1 ∧
      SetupIssuer c issuer = .returned
        ({ issuer with
           Status :=
             { Conditions :=
                 setCondition issuer.Status.Conditions
                   (specReadyCondition issuer.ObjectMeta.Generation
                     (c.SecretTLSCert (c.ResourceNamespace issuer.ObjectMeta) ca.SecretName)
                     (c.SecretTLSKey (c.ResourceNamespace issuer.ObjectMeta) ca.SecretName)) } },
         r) := by
  obtain ⟨r, hr, hev, happ⟩ := Setup_writes_spec_condition c issuer ca hca
  refine ⟨r, hr, hev, ?_⟩
  simp only [SetupIssuer, hr, happ]

/-! ## Two calls in a row, and the states of the condition -/

/-- C8: two calls of `Setup` in a row, with the same answers of the secret
getters: both return; the second leaves the issuer object exactly as the first
left it, so the `Ready` condition (status, reason, message, observed
generation) is the same after both; the number of `Ready` conditions does not
grow (one, when there was at most one before the first call); each call emits
one event, and the second call has the same result and trace as the first. -/
theorem Setup_twice_same_condition (c : CA) (issuer : GenericIssuer) (ca : CAIssuer)
    (hca : issuer.Spec.CA = some ca) :
    ∃ i1 r1 i2 r2,
      SetupIssuer c issuer = .returned (i1, r1) ∧ SetupIssuer c i1 = .returned (i2, r2) ∧
      (∃ cond, GetIssuerCondition i1 "Ready" = some cond ∧
        GetIssuerCondition i2 "Ready" = some cond) ∧
      i2 = i1 ∧
      (conditionsOfType i1 "Ready").length = max 1 (conditionsOfType issuer "Ready").length ∧
      (conditionsOfType i2 "Ready").length = (conditionsOfType i1 "Ready").length ∧
      i2.Status.Conditions.length = i1.Status.Conditions.length ∧
      (eventsOf r1.trace).length = 1 ∧ (eventsOf r2.trace).length = 1 ∧ r2 = r1 := by
  obtain ⟨r1, hr1, hev1, hS1⟩ := SetupIssuer_eq c issuer ca hca
  obtain ⟨r2, hr2, hev2, hS2⟩ := SetupIssuer_eq c
    { issuer with
      Status :=
        { Conditions :=
            setCondition issuer.Status.Conditions
              (specReadyCondition issuer.ObjectMeta.Generation
                (c.SecretTLSCert (c.ResourceNamespace issuer.ObjectMeta) ca.SecretName)
                (c.SecretTLSKey (c.ResourceNamespace issuer.ObjectMeta) ca.SecretName)) } }
    ca hca
  simp only [setCondition_idem] at hS2
  have hr : r2 = r1 := by
    have h := Setup_congr_status c
      { issuer with
        Status :=
          { Conditions :=
              setCondition issuer.Status.Conditions
                (specReadyCondition issuer.ObjectMeta.Generation
                  (c.SecretTLSCert (c.ResourceNamespace issuer.ObjectMeta) ca.SecretName)
                  (c.SecretTLSKey (c.ResourceNamespace issuer.ObjectMeta) ca.SecretName)) } }
      issuer rfl rfl
    rw [hr1, hr2] at h
    cases h
    rfl
  have hfind := find_setCondition issuer.Status.Conditions
    (specReadyCondition issuer.ObjectMeta.Generation
      (c.SecretTLSCert (c.ResourceNamespace issuer.ObjectMeta) ca.SecretName)
      (c.SecretTLSKey (c.ResourceNamespace issuer.ObjectMeta) ca.SecretName))
    "Ready" (specReadyCondition_type _ _ _)
  exact ⟨_, r1, _, r2, hS1, hS2, ⟨_, hfind, hfind⟩, rfl,
    count_setCondition _ _ "Ready" (specReadyCondition_type _ _ _), rfl, rfl, hev1, hev2, hr⟩

/-- Witness of C8: an issuer that is Verified and loses its secret; after the
first and after the second call the `Ready` condition is the same Failed
condition, and the other condition of the issuer is untouched. -/
theorem Setup_twice_same_condition_witness :
    issuerVerified.Spec.CA = some ⟨"ca-secret"⟩ ∧
    ∃ i1 r1 i2 r2,
      SetupIssuer caSecretMissing issuerVerified = .returned (i1, r1) ∧
      SetupIssuer caSecretMissing i1 = .returned (i2, r2) ∧
      (∃ cond, GetIssuerCondition i1 "Ready" = some cond ∧
        GetIssuerCondition i2 "Ready" = some cond) ∧
      i2 = i1 ∧
      (conditionsOfType i1 "Ready").length =
        max 1 (conditionsOfType issuerVerified "Ready").length ∧
      (conditionsOfType i2 "Ready").length = (conditionsOfType i1 "Ready").length ∧
      i2.Status.Conditions.length = i1.Status.Conditions.length ∧
      (eventsOf r1.trace).length = 1 ∧ (eventsOf r2.trace).length = 1 ∧ r2 = r1 :=
  ⟨rfl, Setup_twice_same_condition caSecretMissing issuerVerified ⟨"ca-secret"⟩ rfl⟩

/-- C9: whatever conditions the issuer carries before the call, `Setup` leaves
a `Ready` condition that is the one prescribed for the answers of the secret
getters (status, reason, message) at the generation of the issuer; it shows
exactly one of the three states (False, `ErrGetKeyPair`), (False,
`ErrInvalidKeyPair`), (True, `KeyPairVerified`); the same call on the issuer
with any other prior conditions leaves the same `Ready` condition; and from the
issuer as it is, each of the three states is reached by some answers of the
secret getters. -/
theorem Setup_state_machine (c : CA) (issuer : GenericIssuer) (ca : CAIssuer)
    (hca : issuer.Spec.CA = some ca) :
    ∃ i1 r cond,
      SetupIssuer c issuer = .returned (i1, r) ∧
      GetIssuerCondition i1 "Ready" = some cond ∧
      cond = specReadyCondition issuer.ObjectMeta.Generation
        (c.SecretTLSCert (c.ResourceNamespace issuer.ObjectMeta) ca.SecretName)
        (c.SecretTLSKey (c.ResourceNamespace issuer.ObjectMeta) ca.SecretName) ∧
      (((cond.Status, cond.Reason) = (.ConditionFalse, "ErrGetKeyPair") ∧
          readyStateOf cond = some .Failed) ∨
       ((cond.Status, cond.Reason) = (.ConditionFalse, "ErrInvalidKeyPair") ∧
          readyStateOf cond = some .Invalid) ∨
       ((cond.Status, cond.Reason) = (.ConditionTrue, "KeyPairVerified") ∧
          readyStateOf cond = some .Verified)) ∧
      (∀ prior : List IssuerCondition, ∃ j1 r2,
        SetupIssuer c { issuer with Status := { Conditions := prior } } = .returned (j1, r2) ∧
        GetIssuerCondition j1 "Ready" = some cond) ∧
      (∀ target : ReadyState, ∃ c2 j1 r2 cond2,
        SetupIssuer c2 issuer = .returned (j1, r2) ∧
        GetIssuerCondition j1 "Ready" = some cond2 ∧ readyStateOf cond2 = some target) := by
  obtain ⟨r1, -, -, hS1⟩ := SetupIssuer_eq c issuer ca hca
  refine ⟨_, r1, _, hS1, find_setCondition _ _ "Ready" (specReadyCondition_type _ _ _), rfl,
    ?_, ?_, ?_⟩
  · cases hcert : c.SecretTLSCert (c.ResourceNamespace issuer.ObjectMeta) ca.SecretName with
    | error e => exact Or.inl ⟨rfl, rfl⟩
    | ok cert =>
      cases hkey : c.SecretTLSKey (c.ResourceNamespace issuer.ObjectMeta) ca.SecretName with
      | error e => exact Or.inl ⟨rfl, rfl⟩
      | ok key =>
        cases hisca : cert.IsCA with
        | false =>
          rw [specReadyCondition_not_ca _ cert key hisca]
          exact Or.inr (Or.inl ⟨rfl, rfl⟩)
        | true =>
          rw [specReadyCondition_ca _ cert key hisca]
          exact Or.inr (Or.inr ⟨rfl, rfl⟩)
  · intro prior
    obtain ⟨r2, -, -, hS2⟩ := SetupIssuer_eq c
      { issuer with Status := { Conditions := prior } } ca hca
    exact ⟨_, r2, hS2, find_setCondition _ _ "Ready" (specReadyCondition_type _ _ _)⟩
  · intro target
    cases target with
    | Failed =>
      obtain ⟨r2, -, -, hS2⟩ := SetupIssuer_eq caSecretMissing issuer ca hca
      exact ⟨caSecretMissing, _, r2, _, hS2,
        find_setCondition _ _ "Ready" (specReadyCondition_type _ _ _), rfl⟩
    | Invalid =>
      obtain ⟨r2, -, -, hS2⟩ := SetupIssuer_eq (caKeyPair false) issuer ca hca
      exact ⟨caKeyPair false, _, r2, _, hS2,
        find_setCondition _ _ "Ready" (specReadyCondition_type _ _ _), rfl⟩
    | Verified =>
      obtain ⟨r2, -, -, hS2⟩ := SetupIssuer_eq (caKeyPair true) issuer ca hca
      exact ⟨caKeyPair true, _, r2, _, hS2,
        find_setCondition _ _ "Ready" (specReadyCondition_type _ _ _), rfl⟩

/-- Witness of C9: an issuer that is Verified, with a key pair whose certificate
is not a CA. -/
theorem Setup_state_machine_witness :
    issuerVerified.Spec.CA = some ⟨"ca-secret"⟩ ∧
    ∃ i1 r cond,
      SetupIssuer (caKeyPair false) issuerVerified = .returned (i1, r) ∧
      GetIssuerCondition i1 "Ready" = some cond ∧
      cond = specReadyCondition 4 (.ok ⟨false⟩) (.ok ⟨7⟩) ∧
      (((cond.Status, cond.Reason) = (.ConditionFalse, "ErrGetKeyPair") ∧
          readyStateOf cond = some .Failed) ∨
       ((cond.Status, cond.Reason) = (.ConditionFalse, "ErrInvalidKeyPair") ∧
          readyStateOf cond = some .Invalid) ∨
       ((cond.Status, cond.Reason) = (.ConditionTrue, "KeyPairVerified") ∧
          readyStateOf cond = some .Verified)) ∧
      (∀ prior : List IssuerCondition, ∃ j1 r2,
        SetupIssuer (caKeyPair false)
          { issuerVerified with Status := { Conditions := prior } } = .returned (j1, r2) ∧
        GetIssuerCondition j1 "Ready" = some cond) ∧
      (∀ target : ReadyState, ∃ c2 j1 r2 cond2,
        SetupIssuer c2 issuerVerified = .returned (j1, r2) ∧
        GetIssuerCondition j1 "Ready" = some cond2 ∧ readyStateOf cond2 = some target) :=
  ⟨rfl, Setup_state_machine (caKeyPair false) issuerVerified ⟨"ca-secret"⟩ rfl⟩

end CertManager
